import Mathlib

/-!
Verification development for the AI-Grader repository.

The Python sources are shallowly embedded: strings are Lean `String`s
(lists of characters), Python `float` scores are modelled as rationals,
Python `None` as `Option.none`, the `float('inf')` sentinel used for an
unbounded word-count maximum as `(⊤ : WithTop ℤ)`, and a Python call that
may raise is modelled as an `Except String` value carrying the exception
message.  `round(x, 2)` is modelled as exact round-half-to-even to two
decimals over the rationals.
-/

namespace AIGrader

/-! ## Text utilities (src/ai_grader/utils/text_utils.py) -/

/-- Whitespace test matching Python's whitespace set on ASCII
(space, tab, newline, carriage return, vertical tab, form feed),
used by `str.strip`, `str.split`, `str.isspace` and the regex `\s`. -/
def isWs (c : Char) : Bool :=
  c.toNat = 32 || c.toNat = 9 || c.toNat = 10 || c.toNat = 13 || c.toNat = 11 || c.toNat = 12

/-- ASCII lower-casing of a single character, as performed per character by
Python's `str.lower` on ASCII text. -/
def lowerChar (c : Char) : Char :=
  if 'A' ≤ c ∧ c ≤ 'Z' then Char.ofNat (c.toNat + 32) else c

/-- Lower-casing of a character list (`text.lower()`). -/
def lowerL (l : List Char) : List Char := l.map lowerChar

/-- Drop leading whitespace (left half of `text.strip()`). -/
def lstrip (l : List Char) : List Char := l.dropWhile isWs

/-- Drop trailing whitespace (right half of `text.strip()`). -/
def rstrip (l : List Char) : List Char := (l.reverse.dropWhile isWs).reverse

/-- Python `text.strip()`: drop leading and trailing whitespace. -/
def pyStrip (l : List Char) : List Char := rstrip (lstrip l)

/-- Worker for whitespace collapsing: the flag records whether the previous
character was part of a whitespace run that already emitted its single space. -/
def collapseAux : Bool → List Char → List Char
  | _, [] => []
  | prevWs, c :: t =>
    if isWs c then
      (if prevWs then collapseAux true t else ' ' :: collapseAux true t)
    else c :: collapseAux false t

/-- Python `re.sub(r'\s+', ' ', text)`: replace every maximal run of
whitespace characters by a single space. -/
def collapseWs (l : List Char) : List Char := collapseAux false l

/-- Embedding of `normalize_text` on a present string: lower-case, strip,
then collapse whitespace runs, in the order of the source. -/
def normalizeStr (s : String) : String := ⟨collapseWs (pyStrip (lowerL s.data))⟩

/-- Embedding of `normalize_text` (text_utils.py lines 5-15): `None` is
passed through, otherwise lower-case, strip and collapse whitespace. -/
def normalize_text : Option String → Option String
  | none => none
  | some s => some (normalizeStr s)

/-- Worker for `text.split()`: accumulates the current word in reverse. -/
def pySplitAux : List Char → List Char → List (List Char)
  | cur, [] => if cur.isEmpty then [] else [cur.reverse]
  | cur, c :: t =>
    if isWs c then
      (if cur.isEmpty then pySplitAux [] t else cur.reverse :: pySplitAux [] t)
    else pySplitAux (c :: cur) t

/-- Embedding of `count_words` (text_utils.py lines 17-21):
`len(text.split())`, splitting on whitespace runs with no empty words. -/
def count_words (s : String) : Nat := (pySplitAux [] s.data).length

/-- Python `str.isspace()`: non-empty and all characters whitespace. -/
def strIsSpace (s : String) : Bool := !s.data.isEmpty && s.data.all isWs

/-- Python `s.startswith(pre)`. -/
def strStartsWith (s pre : String) : Bool := pre.data.isPrefixOf s.data

/-- Worker for Python's substring test `pat in s` on character lists. -/
def isSubstr (pat : List Char) : List Char → Bool
  | [] => pat.isEmpty
  | c :: t => pat.isPrefixOf (c :: t) || isSubstr pat t

/-- Python's substring test `pat in s`. -/
def strContains (s pat : String) : Bool := isSubstr pat.data s.data

/-! ### Character-level lemmas -/

theorem char_toNat_ofNat {n : Nat} (h : n.isValidChar) : (Char.ofNat n).toNat = n := by
  simp [Char.ofNat, h, Char.toNat, Char.ofNatAux, UInt32.toNat, BitVec.toNat_ofNatLt]

theorem lowerChar_toNat {c : Char} (h1 : 'A' ≤ c) (h2 : c ≤ 'Z') :
    (lowerChar c).toNat = c.toNat + 32 := by
  rw [Char.le_def] at h1 h2
  have hlo : 65 ≤ c.toNat := h1
  have hhi : c.toNat ≤ 90 := h2
  have hv : (c.toNat + 32).isValidChar := by
    left
    omega
  rw [lowerChar, if_pos ⟨Char.le_def.2 h1, Char.le_def.2 h2⟩]
  exact char_toNat_ofNat hv

theorem lowerChar_eq_self {c : Char} (h : ¬('A' ≤ c ∧ c ≤ 'Z')) : lowerChar c = c := by
  rw [lowerChar, if_neg h]

theorem lowerChar_toNat_not_upper {c : Char} :
    ¬(65 ≤ (lowerChar c).toNat ∧ (lowerChar c).toNat ≤ 90) := by
  by_cases h : 'A' ≤ c ∧ c ≤ 'Z'
  · rw [lowerChar_toNat h.1 h.2]
    have hhi : c.toNat ≤ 90 := Char.le_def.1 h.2
    have hlo : 65 ≤ c.toNat := Char.le_def.1 h.1
    omega
  · rw [lowerChar_eq_self h]
    intro hc
    exact h ⟨Char.le_def.2 hc.1, Char.le_def.2 hc.2⟩

theorem lowerChar_idem (c : Char) : lowerChar (lowerChar c) = lowerChar c := by
  apply lowerChar_eq_self
  intro hc
  exact lowerChar_toNat_not_upper ⟨Char.le_def.1 hc.1, Char.le_def.1 hc.2⟩

theorem isWs_lowerChar (c : Char) : isWs (lowerChar c) = isWs c := by
  by_cases h : 'A' ≤ c ∧ c ≤ 'Z'
  · have ht := lowerChar_toNat h.1 h.2
    have hlo : 65 ≤ c.toNat := Char.le_def.1 h.1
    have hhi : c.toNat ≤ 90 := Char.le_def.1 h.2
    have e1 : isWs (lowerChar c) = false := by
      simp only [isWs, Bool.or_eq_false_iff, decide_eq_false_iff_not, ht]
      omega
    have e2 : isWs c = false := by
      simp only [isWs, Bool.or_eq_false_iff, decide_eq_false_iff_not]
      omega
    rw [e1, e2]
  · rw [lowerChar_eq_self h]

theorem lowerChar_space : lowerChar ' ' = ' ' := by decide

/-! ### Lower-casing commutes with the other normalization stages -/

theorem lowerL_idem (l : List Char) : lowerL (lowerL l) = lowerL l := by
  induction l with
  | nil => rfl
  | cons c t ih =>
    simp only [lowerL, List.map_cons] at ih ⊢
    rw [lowerChar_idem]
    exact congrArg _ ih

theorem lowerL_dropWhile (l : List Char) :
    lowerL (l.dropWhile isWs) = (lowerL l).dropWhile isWs := by
  induction l with
  | nil => rfl
  | cons c t ih =>
    simp only [lowerL, List.map_cons, List.dropWhile_cons, isWs_lowerChar]
    by_cases h : isWs c = true
    · simp only [h, if_true]
      exact ih
    · simp [h]

theorem lowerL_reverse (l : List Char) : lowerL l.reverse = (lowerL l).reverse :=
  List.map_reverse lowerChar l

theorem lowerL_lstrip (l : List Char) : lowerL (lstrip l) = lstrip (lowerL l) :=
  lowerL_dropWhile l

theorem lowerL_rstrip (l : List Char) : lowerL (rstrip l) = rstrip (lowerL l) := by
  rw [rstrip, rstrip, lowerL_reverse, lowerL_dropWhile, lowerL_reverse]

theorem lowerL_pyStrip (l : List Char) : lowerL (pyStrip l) = pyStrip (lowerL l) := by
  rw [pyStrip, pyStrip, lowerL_rstrip, lowerL_lstrip]

theorem lowerL_collapseAux (l : List Char) :
    ∀ b, lowerL (collapseAux b l) = collapseAux b (lowerL l) := by
  induction l with
  | nil => intro b; rfl
  | cons c t ih =>
    intro b
    by_cases hws : isWs c = true
    · cases b
      · simp only [collapseAux, lowerL, List.map_cons, isWs_lowerChar, hws, if_true,
          Bool.false_eq_true, if_false]
        rw [lowerChar_space]
        exact congrArg _ (ih true)
      · simp only [collapseAux, lowerL, List.map_cons, isWs_lowerChar, hws, if_true]
        exact ih true
    · simp only [collapseAux, lowerL, List.map_cons, isWs_lowerChar, hws,
        Bool.false_eq_true, if_false]
      exact congrArg _ (ih false)

/-! ### Leading/trailing whitespace predicates -/

/-- The list does not start with a whitespace character. -/
def noLeadWs : List Char → Bool
  | [] => true
  | c :: _ => !isWs c

/-- The list does not end with a whitespace character. -/
def noTrailWs : List Char → Bool
  | [] => true
  | [c] => !isWs c
  | _ :: t => noTrailWs t

theorem noTrailWs_cons_of_ne {c : Char} {t : List Char} (h : t ≠ []) :
    noTrailWs (c :: t) = noTrailWs t := by
  cases t with
  | nil => exact absurd rfl h
  | cons c2 t2 => rfl

theorem noTrailWs_append_singleton (xs : List Char) (c : Char) :
    noTrailWs (xs ++ [c]) = !isWs c := by
  induction xs with
  | nil => rfl
  | cons x xs ih =>
    rw [List.cons_append, noTrailWs_cons_of_ne (by simp), ih]

theorem noTrailWs_reverse (l : List Char) : noTrailWs l.reverse = noLeadWs l := by
  cases l with
  | nil => rfl
  | cons c t => rw [List.reverse_cons, noTrailWs_append_singleton]; rfl

theorem noLeadWs_reverse (l : List Char) : noLeadWs l.reverse = noTrailWs l := by
  have h := noTrailWs_reverse l.reverse
  rw [List.reverse_reverse] at h
  exact h.symm

theorem noLeadWs_dropWhile (l : List Char) : noLeadWs (l.dropWhile isWs) = true := by
  induction l with
  | nil => rfl
  | cons c t ih =>
    rw [List.dropWhile_cons]
    by_cases h : isWs c = true
    · simp only [h, if_true]
      exact ih
    · simp [noLeadWs, h]

theorem noLeadWs_lstrip (l : List Char) : noLeadWs (lstrip l) = true :=
  noLeadWs_dropWhile l

theorem noTrailWs_rstrip (l : List Char) : noTrailWs (rstrip l) = true := by
  rw [rstrip, noTrailWs_reverse]
  exact noLeadWs_dropWhile _

theorem prefix_rstrip (l : List Char) : rstrip l <+: l := by
  rw [rstrip]
  have h : l.reverse.dropWhile isWs <:+ l.reverse := List.dropWhile_suffix _
  have h2 := List.reverse_prefix.2 h
  rwa [List.reverse_reverse] at h2

theorem noLeadWs_of_pre {l1 l2 : List Char} (h : l1 <+: l2) (h2 : noLeadWs l2 = true) :
    noLeadWs l1 = true := by
  cases l1 with
  | nil => rfl
  | cons c t =>
    obtain ⟨r, hr⟩ := h
    rw [List.cons_append] at hr
    rw [← hr] at h2
    exact h2

theorem noLeadWs_pyStrip (l : List Char) : noLeadWs (pyStrip l) = true :=
  noLeadWs_of_pre (prefix_rstrip _) (noLeadWs_lstrip l)

theorem noTrailWs_pyStrip (l : List Char) : noTrailWs (pyStrip l) = true :=
  noTrailWs_rstrip _

theorem lstrip_eq_self {l : List Char} (h : noLeadWs l = true) : lstrip l = l := by
  cases l with
  | nil => rfl
  | cons c t =>
    have hc : isWs c = false := by
      simp only [noLeadWs, Bool.not_eq_true'] at h
      exact h
    rw [lstrip, List.dropWhile_cons, hc]
    simp

theorem rstrip_eq_self {l : List Char} (h : noTrailWs l = true) : rstrip l = l := by
  have h2 : noLeadWs l.reverse = true := by rw [noLeadWs_reverse]; exact h
  have h3 := lstrip_eq_self h2
  rw [lstrip] at h3
  rw [rstrip, h3, List.reverse_reverse]

theorem pyStrip_eq_self {l : List Char} (h1 : noLeadWs l = true) (h2 : noTrailWs l = true) :
    pyStrip l = l := by
  rw [pyStrip, lstrip_eq_self h1, rstrip_eq_self h2]

/-! ### Whitespace collapsing preserves the stripped form and is idempotent -/

theorem collapseAux_false_eq_nil_iff (l : List Char) : collapseAux false l = [] ↔ l = [] := by
  cases l with
  | nil => simp [collapseAux]
  | cons c t =>
    by_cases h : isWs c = true <;> simp [collapseAux, h]

theorem collapseAux_true_eq_nil_iff (l : List Char) :
    collapseAux true l = [] ↔ l.all isWs = true := by
  induction l with
  | nil => simp [collapseAux]
  | cons c t ih =>
    by_cases h : isWs c = true
    · simp [collapseAux, h, ih]
    · simp [collapseAux, h]

theorem noLeadWs_collapse {l : List Char} (h : noLeadWs l = true) :
    noLeadWs (collapseWs l) = true := by
  cases l with
  | nil => rfl
  | cons c t =>
    have hc : isWs c = false := by
      simp only [noLeadWs, Bool.not_eq_true'] at h
      exact h
    simp [collapseWs, collapseAux, hc, noLeadWs]

theorem noTrailWs_false_of_all_ws {l : List Char} (h : l ≠ []) (ha : l.all isWs = true) :
    noTrailWs l = false := by
  induction l with
  | nil => exact absurd rfl h
  | cons c t ih =>
    cases t with
    | nil =>
      simp only [List.all_cons, List.all_nil, Bool.and_true] at ha
      simp [noTrailWs, ha]
    | cons c2 t2 =>
      rw [noTrailWs_cons_of_ne (by simp)]
      simp only [List.all_cons, Bool.and_eq_true] at ha
      exact ih (by simp) (by simp [ha.2.1, ha.2.2])

theorem collapseAux_cons (b : Bool) (c : Char) (t : List Char) :
    collapseAux b (c :: t) =
      if isWs c then (if b then collapseAux true t else ' ' :: collapseAux true t)
      else c :: collapseAux false t := rfl

theorem noTrailWs_collapseAux (l : List Char) :
    ∀ b, noTrailWs l = true → noTrailWs (collapseAux b l) = true := by
  induction l with
  | nil => intro b _; rfl
  | cons c t ih =>
    intro b h
    by_cases hws : isWs c = true
    · cases t with
      | nil => simp [noTrailWs, hws] at h
      | cons c2 t2 =>
        rw [noTrailWs_cons_of_ne (by simp)] at h
        cases b
        · rw [collapseAux_cons, if_pos hws, if_neg (by simp)]
          have hne : collapseAux true (c2 :: t2) ≠ [] := by
            rw [Ne, collapseAux_true_eq_nil_iff]
            intro hall
            have hf := noTrailWs_false_of_all_ws (l := c2 :: t2) (by simp) hall
            rw [h] at hf
            exact absurd hf (by simp)
          rw [noTrailWs_cons_of_ne hne]
          exact ih true h
        · rw [collapseAux_cons, if_pos hws, if_pos rfl]
          exact ih true h
    · cases t with
      | nil =>
        rw [collapseAux_cons, if_neg hws]
        simp only [collapseAux, noTrailWs, Bool.not_eq_true'] at h ⊢
        exact h
      | cons c2 t2 =>
        rw [noTrailWs_cons_of_ne (by simp)] at h
        have h2 := ih false h
        have hne : collapseAux false (c2 :: t2) ≠ [] := by
          rw [Ne, collapseAux_false_eq_nil_iff]
          simp
        rw [collapseAux_cons, if_neg hws, noTrailWs_cons_of_ne hne]
        exact h2

theorem collapse_idem (l : List Char) :
    ∀ b, collapseAux b (collapseAux b l) = collapseAux b l := by
  induction l with
  | nil => intro b; rfl
  | cons c t ih =>
    intro b
    by_cases hws : isWs c = true
    · cases b
      · have hsp : isWs ' ' = true := by decide
        simp only [collapseAux, hws, if_true, Bool.false_eq_true, if_false, hsp]
        exact congrArg _ (ih true)
      · simp only [collapseAux, hws, if_true]
        exact ih true
    · simp only [collapseAux, hws, Bool.false_eq_true, if_false]
      exact congrArg _ (ih false)

/-! ### Idempotence of normalization -/

theorem noTrailWs_collapse {l : List Char} (h : noTrailWs l = true) :
    noTrailWs (collapseWs l) = true :=
  noTrailWs_collapseAux l false h

theorem normalizeStr_idem (s : String) : normalizeStr (normalizeStr s) = normalizeStr s := by
  show (⟨collapseWs (pyStrip (lowerL (collapseWs (pyStrip (lowerL s.data)))))⟩ : String) =
    ⟨collapseWs (pyStrip (lowerL s.data))⟩
  have hL : lowerL (collapseWs (pyStrip (lowerL s.data))) =
      collapseWs (pyStrip (lowerL s.data)) := by
    simp only [collapseWs]
    rw [lowerL_collapseAux, lowerL_pyStrip, lowerL_idem]
  rw [hL]
  have h1 := noLeadWs_pyStrip (lowerL s.data)
  have h2 := noTrailWs_pyStrip (lowerL s.data)
  have h3 := noLeadWs_collapse h1
  have h4 := noTrailWs_collapse h2
  rw [pyStrip_eq_self h3 h4]
  show (⟨collapseAux false (collapseAux false (pyStrip (lowerL s.data)))⟩ : String) =
    ⟨collapseAux false (pyStrip (lowerL s.data))⟩
  rw [collapse_idem]

/-! ## Data model (src/ai_grader/core/schemas.py)

Python `float` is modelled as `ℚ`, `Optional[T]` as `Option T`, and the
`float('inf')` value the app layer stores into `WordCountRange.max_words`
as `(⊤ : WithTop ℤ)`.  The `is None` guards of `_check_word_count` are
modelled by wrapping both bounds in `Option`. -/

/-- Embedding of `CriterionScore` (schemas.py lines 6-12). -/
structure CriterionScore where
  criterion_name : String
  score : ℚ
  max_score : ℚ
  feedback : Option String
deriving DecidableEq

/-- Embedding of `EvaluationCriterion` (schemas.py lines 14-19). -/
structure EvaluationCriterion where
  name : String
  max_score : ℚ
  weight : ℚ
deriving DecidableEq

/-- Embedding of `WordCountRange` (schemas.py lines 21-25).  Bounds are
optional because `_check_word_count` guards against `None`; the upper
bound lives in `WithTop ℤ` because the app layer stores `float('inf')`
there for "no upper limit". -/
structure WordCountRange where
  min_words : Option ℤ
  max_words : Option (WithTop ℤ)
deriving DecidableEq

/-- Embedding of `GradingInput` (schemas.py lines 27-35).
`additional_metadata` (a `Dict`) is modelled as an association list. -/
structure GradingInput where
  question_text : String
  student_answer : String
  reference_answer : Option String
  evaluation_criteria : Option (List EvaluationCriterion)
  word_count_requirement : Option WordCountRange
  additional_metadata : Option (List (String × String))
deriving DecidableEq

/-- Embedding of `GradingOutput` (schemas.py lines 37-44). -/
structure GradingOutput where
  total_score : ℚ
  sub_scores : List CriterionScore
  automated_feedback : String
  needs_teacher_review : Bool
  errors : Option (List String)
deriving DecidableEq

/-- Python truthiness of an `Optional[str]`: `None` and `""` are falsy. -/
def truthyStrOpt : Option String → Bool
  | none => false
  | some s => s ≠ ""

/-! ## Rounding

`round(x, 2)` is modelled as exact round-half-to-even (banker's rounding,
Python's documented tie rule) to two decimal places over `ℚ`. -/

/-- Round-half-to-even to the nearest integer. -/
def roundHalfEven (x : ℚ) : ℤ :=
  let f := ⌊x⌋
  let frac := x - f
  if frac < 1 / 2 then f
  else if 1 / 2 < frac then f + 1
  else if f % 2 = 0 then f else f + 1

/-- Python `round(x, 2)` idealised over the rationals. -/
def round2 (x : ℚ) : ℚ := (roundHalfEven (x * 100) : ℚ) / 100

/-! ## Grammar-check collaborator (src/ai_grader/utils/text_utils.py lines 48-82)

The LanguageTool call `tool.check(text)` is an external collaborator; its
outcome is passed in as an `Except String (List LTMatch)` value: `.ok` with
the list of matches, or `.error` with the exception message when the tool
(or its lazy initialization) raises. -/

/-- One LanguageTool match, with the fields `check_grammar_spelling` reads. -/
structure LTMatch where
  message : String
  ruleId : String
  replacements : List String
  matchedText : String
  offset : Nat
  context : String

/-- The issue description `check_grammar_spelling` builds for one match
(text_utils.py lines 64-75).  Python slices `text[a:b]` are embedded as
drop/take on the character list; `max(0, offset - 20)` is truncated
subtraction. -/
def describeMatch (text : String) (m : LTMatch) : String :=
  let base := "Issue: '" ++ m.message ++ "'."
  if m.ruleId = "MORFOLOGIK_RULE_EN_US" ∧ m.replacements ≠ [] ∧
      strStartsWith m.message "Possible spelling mistake" then
    base ++ " Did you mean: " ++ String.intercalate ", " (m.replacements.take 3) ++ "?"
  else if m.context ≠ "" then
    let cs := text.data
    let mlen := m.matchedText.data.length
    let contextStart := m.offset - 20
    let contextEnd := min cs.length (m.offset + mlen + 20)
    let highlighted : String := ⟨(cs.drop m.offset).take mlen⟩
    let snippet := "..." ++ (⟨(cs.drop contextStart).take (m.offset - contextStart)⟩ : String)
      ++ "[" ++ highlighted ++ "]"
      ++ (⟨(cs.drop (m.offset + mlen)).take (contextEnd - (m.offset + mlen))⟩ : String)
      ++ "..."
    base ++ " Context: " ++ snippet
  else base

/-- The sentinel error message of text_utils.py line 81. -/
def ltErrorMsg (e : String) : String :=
  "LanguageTool Error: Could not perform grammar/spelling check due to: " ++ e ++
    ". Please ensure Java is installed and language model can be downloaded."

/-- The sentinel prefix tested at model.py line 115. -/
def ltSentinel : String := "LanguageTool Error:"

/-- Embedding of `check_grammar_spelling` (text_utils.py lines 48-82):
empty or all-whitespace text short-circuits to `([], 0)`; a successful
tool call maps each match to its description; a raised exception is
converted to the single sentinel issue with count 1. -/
def check_grammar_spelling (text : String) (tool : Except String (List LTMatch)) :
    List String × Nat :=
  if text = "" ∨ strIsSpace text then ([], 0)
  else
    match tool with
    | .ok ms => (ms.map (describeMatch text), ms.length)
    | .error e => ([ltErrorMsg e], 1)

/-! ## Scorers (src/ai_grader/core/model.py) -/

/-- Embedding of `AIModel._preprocess_input` (model.py lines 17-27):
normalize the question, the student answer, and — when truthy — the
reference answer; all other fields pass through unchanged. -/
def preprocessInput (gi : GradingInput) : GradingInput :=
  { question_text := normalizeStr gi.question_text
    student_answer := normalizeStr gi.student_answer
    reference_answer :=
      match gi.reference_answer with
      | some r => if r = "" then none else normalize_text (some r)
      | none => none
    evaluation_criteria := gi.evaluation_criteria
    word_count_requirement := gi.word_count_requirement
    additional_metadata := gi.additional_metadata }

/-- Embedding of `AIModel._calculate_relevance_score` (model.py lines 29-73).
The embedding/cosine-similarity collaborator is passed in as
`simResult`: `.ok` with the similarity value, `.error` with the exception
message when embedding fails. -/
def calculateRelevanceScore (pi : GradingInput) (simResult : Except String ℚ) :
    Option CriterionScore :=
  if truthyStrOpt pi.reference_answer = false then
    some { criterion_name := "Relevance", score := 0, max_score := 5,
           feedback := some "Reference answer not provided. Relevance could not be calculated." }
  else if pi.student_answer = "" then
    some { criterion_name := "Relevance", score := 0, max_score := 5,
           feedback := some "Student answer is empty. Relevance could not be calculated." }
  else
    match simResult with
    | .ok similarity =>
      some { criterion_name := "Relevance", score := round2 (similarity * 5), max_score := 5,
             feedback := some "Relevance score based on semantic similarity." }
    | .error e =>
      some { criterion_name := "Relevance", score := 0, max_score := 5,
             feedback := some ("Error calculating relevance: " ++ e) }

/-- Embedding of `AIModel._calculate_grammar_spelling_score`
(model.py lines 75-127).  `checkResult` is the outcome of the
(guarded) `check_grammar_spelling` call: `.error` models the `except`
branch around it. -/
def calculateGrammarSpellingScore (pi : GradingInput)
    (checkResult : Except String (List String × Nat)) : CriterionScore :=
  if pi.student_answer = "" ∨ strIsSpace pi.student_answer then
    { criterion_name := "Grammar and Spelling", score := 0, max_score := 5,
      feedback := some "Student answer is empty. Grammar and spelling could not be assessed." }
  else
    match checkResult with
    | .error e =>
      { criterion_name := "Grammar and Spelling", score := 0, max_score := 5,
        feedback := some ("Could not perform grammar/spelling check: " ++ e) }
    | .ok (issues, issue_count) =>
      let score : ℚ :=
        if issue_count = 0 then 5
        else if issue_count ≤ 2 then 4
        else if issue_count ≤ 4 then 3
        else if issue_count ≤ 6 then 2
        else if issue_count ≤ 8 then 1
        else 0
      if issue_count = 0 then
        { criterion_name := "Grammar and Spelling", score := score, max_score := 5,
          feedback := some "No grammar or spelling issues found." }
      else
        let found := "Found " ++ toString issue_count ++ " grammar/spelling issue(s)."
        match issues with
        | [] =>
          { criterion_name := "Grammar and Spelling", score := score, max_score := 5,
            feedback := some found }
        | i0 :: _ =>
          if strStartsWith i0 ltSentinel then
            { criterion_name := "Grammar and Spelling", score := 0, max_score := 5,
              feedback := some i0 }
          else
            { criterion_name := "Grammar and Spelling", score := score, max_score := 5,
              feedback := some (found ++ " First few issues: "
                ++ String.intercalate "; " (issues.take 3)) }

/-- Rendering of the word-count upper bound in feedback strings: a Python
int prints its decimal digits, `float('inf')` prints `inf`. -/
def maxWordsStr (m : WithTop ℤ) : String :=
  match m with
  | none => "inf"
  | some n => toString n

/-- The invalid-requirement result of `_check_word_count`
(model.py lines 236-241). -/
def invalidWordCountScore : CriterionScore :=
  { criterion_name := "Word Count Adherence", score := 0, max_score := 5,
    feedback := some "Invalid word count requirement provided (e.g., min/max not set, negative, or min > max)." }

/-- Embedding of `AIModel._check_word_count` (model.py lines 225-269):
`None` requirement gives no criterion; a `None`, negative, or
min-above-max requirement is invalid; otherwise the word count is scored
against the inclusive range, with `⊤` (the app's `float('inf')`) always
satisfying the upper side. -/
def checkWordCount (pi : GradingInput) : Option CriterionScore :=
  match pi.word_count_requirement with
  | none => none
  | some req =>
    match req.min_words, req.max_words with
    | some mn, some mx =>
      if mn < 0 ∨ mx < 0 ∨ (mn : WithTop ℤ) > mx then some invalidWordCountScore
      else
        let word_count : ℤ := count_words pi.student_answer
        let res : ℚ × String :=
          if mn ≤ word_count ∧ (word_count : WithTop ℤ) ≤ mx then
            (5, "Word count (" ++ toString word_count ++ ") is within the required range ("
              ++ toString mn ++ "-" ++ maxWordsStr mx ++ " words).")
          else if word_count < mn then
            (5 / 2, "Word count (" ++ toString word_count
              ++ ") is below the minimum requirement of " ++ toString mn ++ " words.")
          else
            (5 / 2, "Word count (" ++ toString word_count
              ++ ") exceeds the maximum limit of " ++ maxWordsStr mx ++ " words.")
        let fb := if pi.student_answer = "" ∧ 0 < mn then res.2 ++ " The answer is empty."
          else res.2
        some { criterion_name := "Word Count Adherence", score := res.1, max_score := 5,
               feedback := some fb }
    | _, _ => some invalidWordCountScore

/-- Modelled on `evaluate_answer` (app.py lines 74-79): after validation
(`min_words ≥ 0`, `max_words ≥ 0`, and `max_words ≥ min_words` unless
`max_words = 0`), a requirement is built only when some bound is positive,
and `max_words = 0` becomes the unbounded sentinel `float('inf')`. -/
def buildWordCountRequirement (min_words max_words : ℤ) : Option WordCountRange :=
  if 0 < min_words ∨ 0 < max_words then
    some { min_words := some min_words
           max_words := some (if max_words = 0 then ⊤ else (max_words : WithTop ℤ)) }
  else none

/-! ## Evaluator (src/ai_grader/core/model.py lines 129-223)

Each of the three scorer calls sits inside its own `try/except`; the
outcome of the call is therefore passed in as an `Except String _` value
(`error` carries the exception message of an unexpected fault).  Each
step contributes to four accumulators of the source: `sub_scores_list`,
`feedback_list`, `total_score_achieved` and `errors_list` (the running
`total_max_score` never reaches the output and is omitted). -/

/-- One evaluation step's contributions to the four accumulators. -/
structure StepAcc where
  subs : List CriterionScore
  fbs : List String
  score : ℚ
  errs : List String

/-- Feedback of a criterion as read by the substring tests in `evaluate`;
the source assumes it is set (each scorer always sets it), so absence
reads as the empty string. -/
def criterionFeedback (r : CriterionScore) : String := r.feedback.getD ""

/-- The substring test flagging a relevance result as an error
(model.py lines 151-153). -/
def relevanceFeedbackFlagged (fb : String) : Bool :=
  strContains fb "Error calculating relevance" || strContains fb "Reference answer not provided"

/-- The substring test flagging a grammar result as an error
(model.py lines 171-173). -/
def grammarFeedbackFlagged (fb : String) : Bool :=
  strContains fb "LanguageTool Error" || strContains fb "Could not perform grammar/spelling check"

/-- The substring test flagging a word-count result as an error
(model.py lines 190-191). -/
def wordCountFeedbackFlagged (fb : String) : Bool :=
  strContains fb "Invalid word count requirement"

/-- Relevance step of `evaluate` (model.py lines 142-160). -/
def relevanceStep (relevanceResult : Except String (Option CriterionScore)) : StepAcc :=
  match relevanceResult with
  | .ok (some r) =>
    { subs := [r]
      fbs := if truthyStrOpt r.feedback then ["Relevance: " ++ criterionFeedback r] else []
      score := r.score
      errs := if relevanceFeedbackFlagged (criterionFeedback r) then [criterionFeedback r]
        else [] }
  | .ok none => { subs := [], fbs := [], score := 0, errs := [] }
  | .error e =>
    let msg := "Critical error in relevance scoring: " ++ e
    { subs := [{ criterion_name := "Relevance", score := 0, max_score := 5,
                 feedback := some msg }]
      fbs := [msg], score := 0, errs := [msg] }

/-- Grammar step of `evaluate` (model.py lines 162-179). -/
def grammarStep (grammarResult : Except String CriterionScore) : StepAcc :=
  match grammarResult with
  | .ok g =>
    { subs := [g]
      fbs := if truthyStrOpt g.feedback then ["Grammar/Spelling: " ++ criterionFeedback g]
        else []
      score := g.score
      errs := if grammarFeedbackFlagged (criterionFeedback g) then [criterionFeedback g]
        else [] }
  | .error e =>
    let msg := "Critical error in grammar/spelling scoring: " ++ e
    { subs := [{ criterion_name := "Grammar and Spelling", score := 0, max_score := 5,
                 feedback := some msg }]
      fbs := [msg], score := 0, errs := [msg] }

/-- Word-count step of `evaluate` (model.py lines 181-199).  In the fault
branch the placeholder is only appended when the original (pre-normalization)
input carried a word-count requirement. -/
def wordCountStep (gi : GradingInput)
    (wordCountResult : Except String (Option CriterionScore)) : StepAcc :=
  match wordCountResult with
  | .ok (some w) =>
    { subs := [w]
      fbs := if truthyStrOpt w.feedback then ["Word Count: " ++ criterionFeedback w] else []
      score := w.score
      errs := if wordCountFeedbackFlagged (criterionFeedback w) then [criterionFeedback w]
        else [] }
  | .ok none => { subs := [], fbs := [], score := 0, errs := [] }
  | .error e =>
    let msg := "Critical error in word count checking: " ++ e
    { subs := if gi.word_count_requirement.isSome then
        [{ criterion_name := "Word Count Adherence", score := 0, max_score := 5,
           feedback := some msg }]
      else []
      fbs := [msg], score := 0, errs := [msg] }

/-- Embedding of `AIModel.evaluate` (model.py lines 129-223).  The three
scorer-call outcomes are passed in explicitly; an `.error` value models an
unexpected exception caught by the step's `except` clause. -/
def evaluate (gi : GradingInput)
    (relevanceResult : Except String (Option CriterionScore))
    (grammarResult : Except String CriterionScore)
    (wordCountResult : Except String (Option CriterionScore)) : GradingOutput :=
  let s1 := relevanceStep relevanceResult
  let s2 := grammarStep grammarResult
  let s3 := wordCountStep gi wordCountResult
  let feedback_list := s1.fbs ++ s2.fbs ++ s3.fbs
  let errors_list := s1.errs ++ s2.errs ++ s3.errs
  { total_score := s1.score + s2.score + s3.score
    sub_scores := s1.subs ++ s2.subs ++ s3.subs
    automated_feedback :=
      if feedback_list.isEmpty then "Evaluation complete. No specific feedback items generated."
      else String.intercalate "\n" feedback_list
    needs_teacher_review := !errors_list.isEmpty
    errors := if errors_list.isEmpty then none else some errors_list }

/-- The full fault-free pipeline: preprocess, then run the three scorers
on the processed input with the given collaborator outcomes, exactly as
`evaluate` does when no unexpected exception occurs. -/
def runEvaluate (gi : GradingInput) (simResult : Except String ℚ)
    (toolResult : Except String (List LTMatch)) : GradingOutput :=
  let pi := preprocessInput gi
  evaluate gi (.ok (calculateRelevanceScore pi simResult))
    (.ok (calculateGrammarSpellingScore pi
      (.ok (check_grammar_spelling pi.student_answer toolResult))))
    (.ok (checkWordCount pi))

/-! ## Helper lemmas about substrings and the evaluator -/

theorem isSubstr_of_isPrefixOf {pat s : List Char} (h : pat.isPrefixOf s = true) :
    isSubstr pat s = true := by
  cases s with
  | nil =>
    cases pat with
    | nil => rfl
    | cons c t => simp [List.isPrefixOf] at h
  | cons c t =>
    rw [isSubstr, h, Bool.true_or]

theorem isPrefixOf_append {pat a : List Char} (b : List Char)
    (h : pat.isPrefixOf a = true) : pat.isPrefixOf (a ++ b) = true := by
  rw [List.isPrefixOf_iff_prefix] at h ⊢
  exact h.trans (List.prefix_append a b)

theorem strContains_append_left {pre : String} (rest : String) {pat : String}
    (h : pat.data.isPrefixOf pre.data = true) : strContains (pre ++ rest) pat = true := by
  rw [strContains, String.data_append]
  exact isSubstr_of_isPrefixOf (isPrefixOf_append rest.data h)

theorem ltErrorMsg_startsWith_sentinel (e : String) :
    strStartsWith (ltErrorMsg e) ltSentinel = true := by
  rw [ltErrorMsg, strStartsWith, String.data_append, String.data_append]
  exact isPrefixOf_append _ (isPrefixOf_append _ (by decide))

theorem grammarFlagged_ltErrorMsg (e : String) :
    grammarFeedbackFlagged (ltErrorMsg e) = true := by
  rw [grammarFeedbackFlagged, ltErrorMsg]
  have h : strContains
      (("LanguageTool Error: Could not perform grammar/spelling check due to: " ++ e) ++
        ". Please ensure Java is installed and language model can be downloaded.")
      "LanguageTool Error" = true := by
    rw [String.append_assoc]
    exact strContains_append_left _ (by decide)
  rw [String.append_assoc] at h ⊢
  rw [h, Bool.true_or]

theorem evaluate_errors_list (gi : GradingInput)
    (rr : Except String (Option CriterionScore)) (gr : Except String CriterionScore)
    (wr : Except String (Option CriterionScore)) :
    (evaluate gi rr gr wr).errors =
      (if ((relevanceStep rr).errs ++ (grammarStep gr).errs ++ (wordCountStep gi wr).errs).isEmpty
        then none
        else some ((relevanceStep rr).errs ++ (grammarStep gr).errs ++ (wordCountStep gi wr).errs)) :=
  rfl

theorem evaluate_errors_mem {gi : GradingInput}
    {rr : Except String (Option CriterionScore)} {gr : Except String CriterionScore}
    {wr : Except String (Option CriterionScore)} {x : String}
    (h : x ∈ (relevanceStep rr).errs ++ (grammarStep gr).errs ++ (wordCountStep gi wr).errs) :
    x ∈ (evaluate gi rr gr wr).errors.getD [] := by
  rw [evaluate_errors_list]
  rw [if_neg (by rw [List.isEmpty_eq_false.2 (List.ne_nil_of_mem h)]; simp)]
  simpa using h

theorem relevanceStep_sum (rr : Except String (Option CriterionScore)) :
    ((relevanceStep rr).subs.map CriterionScore.score).sum = (relevanceStep rr).score := by
  cases rr with
  | error e => simp [relevanceStep]
  | ok o => cases o <;> simp [relevanceStep]

theorem grammarStep_sum (gr : Except String CriterionScore) :
    ((grammarStep gr).subs.map CriterionScore.score).sum = (grammarStep gr).score := by
  cases gr with
  | error e => simp [grammarStep]
  | ok g => simp [grammarStep]

theorem wordCountStep_sum (gi : GradingInput)
    (wr : Except String (Option CriterionScore)) :
    ((wordCountStep gi wr).subs.map CriterionScore.score).sum = (wordCountStep gi wr).score := by
  cases wr with
  | error e =>
    cases h : gi.word_count_requirement.isSome <;> simp [wordCountStep, h]
  | ok o => cases o <;> simp [wordCountStep]

/-! ## Claims -/

/-- C1: for every `GradingInput` and every combination of scorer-call
outcomes (present/absent reference and word-count handling included, as
well as the placeholder-synthesizing fault branches), the `total_score`
of the `GradingOutput` returned by `evaluate` equals the exact sum of
the `score` fields of its `sub_scores`. -/
theorem C1_total_score_eq_sum_sub_scores (gi : GradingInput)
    (rr : Except String (Option CriterionScore)) (gr : Except String CriterionScore)
    (wr : Except String (Option CriterionScore)) :
    (evaluate gi rr gr wr).total_score =
      ((evaluate gi rr gr wr).sub_scores.map CriterionScore.score).sum := by
  show (relevanceStep rr).score + (grammarStep gr).score + (wordCountStep gi wr).score =
    (((relevanceStep rr).subs ++ (grammarStep gr).subs ++ (wordCountStep gi wr).subs).map
      CriterionScore.score).sum
  rw [List.map_append, List.map_append, List.sum_append, List.sum_append,
    relevanceStep_sum, grammarStep_sum, wordCountStep_sum]

/-- C2: `needs_teacher_review` is true exactly when the `errors` field is
present and non-empty; any single flagged condition forces review and
with no flagged condition review is off. -/
theorem C2_needs_review_iff_errors_nonempty (gi : GradingInput)
    (rr : Except String (Option CriterionScore)) (gr : Except String CriterionScore)
    (wr : Except String (Option CriterionScore)) :
    (evaluate gi rr gr wr).needs_teacher_review = true ↔
      ∃ l, (evaluate gi rr gr wr).errors = some l ∧ l ≠ [] := by
  show (!((relevanceStep rr).errs ++ (grammarStep gr).errs ++
      (wordCountStep gi wr).errs).isEmpty) = true ↔ _
  rw [evaluate_errors_list]
  by_cases h : ((relevanceStep rr).errs ++ (grammarStep gr).errs ++
      (wordCountStep gi wr).errs).isEmpty
  · rw [if_pos h, h]
    simp
  · rw [Bool.not_eq_true] at h
    rw [if_neg (by rw [h]; simp), h]
    exact ⟨fun _ => ⟨_, rfl, List.isEmpty_eq_false.1 h⟩, fun _ => rfl⟩

/-- C10 (implicit): the `errors` field of the returned `GradingOutput` is
never an empty list: it is `none` exactly when no error condition was
flagged (equivalently, when review is not needed), and a non-empty list
otherwise. -/
theorem C10_errors_absent_or_nonempty (gi : GradingInput)
    (rr : Except String (Option CriterionScore)) (gr : Except String CriterionScore)
    (wr : Except String (Option CriterionScore)) :
    (evaluate gi rr gr wr).errors ≠ some [] ∧
      ((evaluate gi rr gr wr).errors = none ↔
        (evaluate gi rr gr wr).needs_teacher_review = false) := by
  rw [evaluate_errors_list]
  show _ ∧ (_ ↔ (!((relevanceStep rr).errs ++ (grammarStep gr).errs ++
    (wordCountStep gi wr).errs).isEmpty) = false)
  by_cases h : ((relevanceStep rr).errs ++ (grammarStep gr).errs ++
      (wordCountStep gi wr).errs).isEmpty
  · rw [if_pos h, h]
    simp
  · rw [Bool.not_eq_true] at h
    rw [if_neg (by rw [h]; simp), h]
    constructor
    · intro he
      rw [Option.some.injEq] at he
      exact List.isEmpty_eq_false.1 h he
    · simp

/-- C9: `normalize` is idempotent on every text, and it is the identity
on absence. -/
theorem C9_normalize_idempotent_and_absent :
    (∀ t : Option String, normalize_text (normalize_text t) = normalize_text t) ∧
      normalize_text none = none := by
  constructor
  · intro t
    cases t with
    | none => rfl
    | some s => simp [normalize_text, normalizeStr_idem]
  · rfl

/-! ### Rounding lemmas for the relevance score -/

theorem roundHalfEven_nonpos {x : ℚ} (h : x ≤ 0) : roundHalfEven x ≤ 0 := by
  simp only [roundHalfEven]
  have hfl : (⌊x⌋ : ℚ) ≤ x := Int.floor_le x
  have hf0 : ⌊x⌋ ≤ 0 := Int.floor_nonpos h
  have key : ¬(x - ⌊x⌋ < 1 / 2) → ⌊x⌋ < 0 := by
    intro h1
    have hc : (⌊x⌋ : ℚ) < 0 := by linarith [not_lt.1 h1]
    exact_mod_cast hc
  split_ifs with h1 h2 h3
  · exact hf0
  · have := key h1
    omega
  · exact hf0
  · have := key h1
    omega

theorem roundHalfEven_neg {x : ℚ} (h : x ≤ -1) : roundHalfEven x < 0 := by
  simp only [roundHalfEven]
  have hfl : (⌊x⌋ : ℚ) ≤ x := Int.floor_le x
  have hf0 : ⌊x⌋ ≤ -1 := by
    have hc : (⌊x⌋ : ℚ) < 0 := lt_of_le_of_lt (le_trans hfl h) (by norm_num)
    have : ⌊x⌋ < 0 := by exact_mod_cast hc
    omega
  have key : ¬(x - ⌊x⌋ < 1 / 2) → ⌊x⌋ < -1 := by
    intro h1
    have hc : (⌊x⌋ : ℚ) < -1 := by linarith [not_lt.1 h1]
    exact_mod_cast hc
  split_ifs with h1 h2 h3
  · omega
  · have := key h1
    omega
  · omega
  · have := key h1
    omega

theorem round2_nonpos {x : ℚ} (h : x ≤ 0) : round2 x ≤ 0 := by
  rw [round2]
  apply div_nonpos_of_nonpos_of_nonneg _ (by norm_num)
  have := roundHalfEven_nonpos (x := x * 100)
    (mul_nonpos_of_nonpos_of_nonneg h (by norm_num))
  exact_mod_cast this

theorem round2_neg {x : ℚ} (h : x ≤ -(1 / 100)) : round2 x < 0 := by
  rw [round2]
  apply div_neg_of_neg_of_pos _ (by norm_num)
  have := roundHalfEven_neg (x := x * 100) (by linarith)
  exact_mod_cast this

/-- The fixed relevance result when no reference answer is available
(model.py lines 32-37). -/
def refMissingScore : CriterionScore :=
  { criterion_name := "Relevance", score := 0, max_score := 5,
    feedback := some "Reference answer not provided. Relevance could not be calculated." }

/-- The fixed relevance result for an empty student answer
(model.py lines 40-45). -/
def emptyStudentScore : CriterionScore :=
  { criterion_name := "Relevance", score := 0, max_score := 5,
    feedback := some "Student answer is empty. Relevance could not be calculated." }

/-- C4 counterexample: the similarity `-1/10000` is negative, yet the
relevance score it produces is `0`, not a negative number (the value
rounds to zero at two decimals), so "a negative similarity produces a
negative score" fails as a universal statement. -/
theorem C4_counterexample_tiny_negative_similarity :
    ((-1 : ℚ) / 10000 < 0) ∧
    (calculateRelevanceScore
      { question_text := "q", student_answer := "a", reference_answer := some "b",
        evaluation_criteria := none, word_count_requirement := none,
        additional_metadata := none }
      (.ok ((-1 : ℚ) / 10000))).map CriterionScore.score = some 0 ∧
    ¬ ((0 : ℚ) < 0) := by
  refine ⟨by norm_num, ?_, by norm_num⟩
  have hr : roundHalfEven ((-1 : ℚ) / 10000 * 5 * 100) = 0 := by
    simp only [roundHalfEven]
    norm_num
  rw [calculateRelevanceScore, if_neg (by decide), if_neg (by decide)]
  show some (round2 ((-1 : ℚ) / 10000 * 5)) = some 0
  rw [round2, hr]
  norm_num

/-- C4 (amended): the RelevanceScorer always returns `max_score = 5`;
absent reference gives score `0` flagged as an evaluator-level error;
empty student answer gives score `0` not flagged; otherwise the score is
`round(similarity * 5, 2)` with no clamping, so similarity `1` gives `5`,
a negative similarity gives a non-positive score, and any similarity at
most `-0.002` gives a strictly negative score (tiny negative similarities
round to zero, which is what the counterexample forces us to weaken). -/
theorem C4_amended_relevance_policy (pi : GradingInput) (sr : Except String ℚ) :
    (∀ r, calculateRelevanceScore pi sr = some r → r.max_score = 5) ∧
    (truthyStrOpt pi.reference_answer = false →
      calculateRelevanceScore pi sr = some refMissingScore ∧
      relevanceFeedbackFlagged (criterionFeedback refMissingScore) = true ∧
      ∀ gi gr wr, criterionFeedback refMissingScore ∈
        (evaluate gi (.ok (calculateRelevanceScore pi sr)) gr wr).errors.getD []) ∧
    (truthyStrOpt pi.reference_answer = true → pi.student_answer = "" →
      calculateRelevanceScore pi sr = some emptyStudentScore ∧
      relevanceFeedbackFlagged (criterionFeedback emptyStudentScore) = false ∧
      (relevanceStep (.ok (calculateRelevanceScore pi sr))).errs = []) ∧
    (truthyStrOpt pi.reference_answer = true → pi.student_answer ≠ "" →
      ∀ sim : ℚ,
        calculateRelevanceScore pi (.ok sim) =
          some { criterion_name := "Relevance", score := round2 (sim * 5), max_score := 5,
                 feedback := some "Relevance score based on semantic similarity." } ∧
        (sim < 0 → round2 (sim * 5) ≤ 0) ∧
        (sim ≤ -(1 / 500) → round2 (sim * 5) < 0) ∧
        (sim = 1 → round2 (sim * 5) = 5)) := by
  refine ⟨?_, ?_, ?_, ?_⟩
  · intro r h
    cases sr <;>
      (rw [calculateRelevanceScore] at h; split_ifs at h <;>
        (simp only [Option.some.injEq] at h; subst h; rfl))
  · intro h
    have hcalc : calculateRelevanceScore pi sr = some refMissingScore := by
      cases sr <;> (rw [calculateRelevanceScore, if_pos h]; rfl)
    have hflag : relevanceFeedbackFlagged (criterionFeedback refMissingScore) = true := by
      decide
    refine ⟨hcalc, hflag, ?_⟩
    intro gi gr wr
    rw [hcalc]
    apply evaluate_errors_mem
    simp only [relevanceStep, hflag, if_true]
    simp
  · intro h1 h2
    have hcalc : calculateRelevanceScore pi sr = some emptyStudentScore := by
      cases sr <;> (rw [calculateRelevanceScore, if_neg (by rw [h1]; simp), if_pos h2]; rfl)
    have hflag : relevanceFeedbackFlagged (criterionFeedback emptyStudentScore) = false := by
      decide
    refine ⟨hcalc, hflag, ?_⟩
    rw [hcalc]
    simp [relevanceStep, hflag]
  · intro h1 h2 sim
    refine ⟨?_, ?_, ?_, ?_⟩
    · rw [calculateRelevanceScore, if_neg (by rw [h1]; simp), if_neg h2]
    · intro hneg
      exact round2_nonpos (mul_nonpos_of_nonpos_of_nonneg (le_of_lt hneg) (by norm_num))
    · intro hle
      exact round2_neg (by linarith)
    · intro h
      subst h
      have hr : roundHalfEven ((1 : ℚ) * 5 * 100) = 500 := by
        simp only [roundHalfEven]
        norm_num
      rw [round2, hr]
      norm_num

/-- C4 witness: the amended relevance policy, instantiated.  With no
reference answer, the fixed feedback ends up in `errors`; with a
reference and similarity `1`, the score is exactly `5`. -/
theorem C4_amended_relevance_policy_witness :
    (calculateRelevanceScore
      { question_text := "q", student_answer := "a", reference_answer := none,
        evaluation_criteria := none, word_count_requirement := none,
        additional_metadata := none } (.ok 0) = some refMissingScore) ∧
    (criterionFeedback refMissingScore ∈
      (evaluate
        { question_text := "q", student_answer := "a", reference_answer := none,
          evaluation_criteria := none, word_count_requirement := none,
          additional_metadata := none }
        (.ok (calculateRelevanceScore
          { question_text := "q", student_answer := "a", reference_answer := none,
            evaluation_criteria := none, word_count_requirement := none,
            additional_metadata := none } (.ok 0)))
        (.ok { criterion_name := "Grammar and Spelling", score := 5, max_score := 5,
               feedback := some "No grammar or spelling issues found." })
        (.ok none)).errors.getD []) ∧
    (round2 ((1 : ℚ) * 5) = 5) := by
  have h1 := C4_amended_relevance_policy
    { question_text := "q", student_answer := "a", reference_answer := none,
      evaluation_criteria := none, word_count_requirement := none,
      additional_metadata := none } (.ok 0)
  have h2 := C4_amended_relevance_policy
    { question_text := "q", student_answer := "a", reference_answer := some "b",
      evaluation_criteria := none, word_count_requirement := none,
      additional_metadata := none } (.ok 1)
  obtain ⟨hm, hr, he, hs⟩ := h1
  obtain ⟨hm2, hr2, he2, hs2⟩ := h2
  refine ⟨(hr rfl).1, (hr rfl).2.2 _ _ _, ?_⟩
  exact ((hs2 rfl (by decide) 1).2.2.2) rfl

/-- C8 counterexample: with no word-count requirement, a fault in the
word-count call (signalled as an error) adds the fault message to
`errors` but synthesizes no placeholder `CriterionScore`: no entry named
"Word Count Adherence" appears in `sub_scores`, refuting the claim that a
placeholder is substituted for every faulting scorer. -/
theorem C8_counterexample_no_placeholder_without_requirement :
    ("Critical error in word count checking: unexpected fault" ∈
      (evaluate
        { question_text := "q", student_answer := "a", reference_answer := none,
          evaluation_criteria := none, word_count_requirement := none,
          additional_metadata := none }
        (.ok none)
        (.ok { criterion_name := "Grammar and Spelling", score := 5, max_score := 5,
               feedback := some "No grammar or spelling issues found." })
        (.error "unexpected fault")).errors.getD []) ∧
    ((evaluate
        { question_text := "q", student_answer := "a", reference_answer := none,
          evaluation_criteria := none, word_count_requirement := none,
          additional_metadata := none }
        (.ok none)
        (.ok { criterion_name := "Grammar and Spelling", score := 5, max_score := 5,
               feedback := some "No grammar or spelling issues found." })
        (.error "unexpected fault")).sub_scores.map CriterionScore.criterion_name =
      ["Grammar and Spelling"]) := by
  constructor
  · decide
  · rfl

/-- C8 (amended): `evaluate` is total and each scoring step is
independently guarded.  A signalled fault in the relevance or grammar
call always substitutes a score-0 placeholder and adds the fault message
to `errors`; a fault in the word-count call always adds its message to
`errors`, but substitutes a placeholder only when the original input
carried a word-count requirement — with no requirement, the word-count
step contributes no sub-score. -/
theorem C8_amended_fault_isolation (gi : GradingInput)
    (rr : Except String (Option CriterionScore)) (gr : Except String CriterionScore)
    (wr : Except String (Option CriterionScore)) :
    (∀ e, rr = .error e →
      ({ criterion_name := "Relevance", score := 0, max_score := 5,
         feedback := some ("Critical error in relevance scoring: " ++ e) } : CriterionScore) ∈
        (evaluate gi rr gr wr).sub_scores ∧
      ("Critical error in relevance scoring: " ++ e) ∈ (evaluate gi rr gr wr).errors.getD []) ∧
    (∀ e, gr = .error e →
      ({ criterion_name := "Grammar and Spelling", score := 0, max_score := 5,
         feedback := some ("Critical error in grammar/spelling scoring: " ++ e) } :
           CriterionScore) ∈ (evaluate gi rr gr wr).sub_scores ∧
      ("Critical error in grammar/spelling scoring: " ++ e) ∈
        (evaluate gi rr gr wr).errors.getD []) ∧
    (∀ e, wr = .error e →
      ("Critical error in word count checking: " ++ e) ∈
        (evaluate gi rr gr wr).errors.getD [] ∧
      (gi.word_count_requirement.isSome = true →
        ({ criterion_name := "Word Count Adherence", score := 0, max_score := 5,
           feedback := some ("Critical error in word count checking: " ++ e) } :
             CriterionScore) ∈ (evaluate gi rr gr wr).sub_scores) ∧
      (gi.word_count_requirement.isSome = false → (wordCountStep gi wr).subs = [])) := by
  refine ⟨?_, ?_, ?_⟩
  · intro e he
    subst he
    constructor
    · show _ ∈ (relevanceStep (.error e)).subs ++ (grammarStep gr).subs ++
        (wordCountStep gi wr).subs
      simp [relevanceStep]
    · apply evaluate_errors_mem
      simp [relevanceStep]
  · intro e he
    subst he
    constructor
    · show _ ∈ (relevanceStep rr).subs ++ (grammarStep (.error e)).subs ++
        (wordCountStep gi wr).subs
      simp [grammarStep]
    · apply evaluate_errors_mem
      simp [grammarStep]
  · intro e he
    subst he
    refine ⟨?_, ?_, ?_⟩
    · apply evaluate_errors_mem
      simp [wordCountStep]
    · intro hreq
      show _ ∈ (relevanceStep rr).subs ++ (grammarStep gr).subs ++
        (wordCountStep gi (.error e)).subs
      simp [wordCountStep, hreq]
    · intro hreq
      simp [wordCountStep, hreq]

/-- C8 witness: with a word-count requirement present and all three
scorer calls faulting, all three placeholders appear in `sub_scores` and
all three fault messages appear in `errors`. -/
theorem C8_amended_fault_isolation_witness :
    (({ criterion_name := "Relevance", score := 0, max_score := 5,
        feedback := some ("Critical error in relevance scoring: " ++ "a") } : CriterionScore) ∈
      (evaluate
        { question_text := "q", student_answer := "w x", reference_answer := none,
          evaluation_criteria := none,
          word_count_requirement := some { min_words := some 1, max_words := some ((3 : ℤ) : WithTop ℤ) },
          additional_metadata := none }
        (.error "a") (.error "b") (.error "c")).sub_scores) ∧
    (({ criterion_name := "Grammar and Spelling", score := 0, max_score := 5,
        feedback := some ("Critical error in grammar/spelling scoring: " ++ "b") } :
          CriterionScore) ∈
      (evaluate
        { question_text := "q", student_answer := "w x", reference_answer := none,
          evaluation_criteria := none,
          word_count_requirement := some { min_words := some 1, max_words := some ((3 : ℤ) : WithTop ℤ) },
          additional_metadata := none }
        (.error "a") (.error "b") (.error "c")).sub_scores) ∧
    (({ criterion_name := "Word Count Adherence", score := 0, max_score := 5,
        feedback := some ("Critical error in word count checking: " ++ "c") } :
          CriterionScore) ∈
      (evaluate
        { question_text := "q", student_answer := "w x", reference_answer := none,
          evaluation_criteria := none,
          word_count_requirement := some { min_words := some 1, max_words := some ((3 : ℤ) : WithTop ℤ) },
          additional_metadata := none }
        (.error "a") (.error "b") (.error "c")).sub_scores) ∧
    (("Critical error in word count checking: " ++ "c") ∈
      (evaluate
        { question_text := "q", student_answer := "w x", reference_answer := none,
          evaluation_criteria := none,
          word_count_requirement := some { min_words := some 1, max_words := some ((3 : ℤ) : WithTop ℤ) },
          additional_metadata := none }
        (.error "a") (.error "b") (.error "c")).errors.getD []) := by
  have h := C8_amended_fault_isolation
    { question_text := "q", student_answer := "w x", reference_answer := none,
      evaluation_criteria := none,
      word_count_requirement := some { min_words := some 1, max_words := some ((3 : ℤ) : WithTop ℤ) },
      additional_metadata := none }
    (.error "a") (.error "b") (.error "c")
  exact ⟨(h.1 "a" rfl).1, (h.2.1 "b" rfl).1, (h.2.2 "c" rfl).2.1 rfl, (h.2.2 "c" rfl).1⟩

/-- C3: for a non-empty, non-whitespace student answer whose grammar
check returns issue count `n` with the first issue not being the failure
sentinel, the grammar score follows the fixed buckets
`0 → 5`, `1-2 → 4`, `3-4 → 3`, `5-6 → 2`, `7-8 → 1`, `n > 8 → 0`,
always with `max_score = 5`. -/
theorem C3_grammar_bucket_scores (pi : GradingInput) (issues : List String) (cnt : Nat)
    (hne : pi.student_answer ≠ "") (hsp : strIsSpace pi.student_answer = false)
    (hsent : ∀ i0, issues.head? = some i0 → strStartsWith i0 ltSentinel = false) :
    (calculateGrammarSpellingScore pi (.ok (issues, cnt))).max_score = 5 ∧
    (cnt = 0 → (calculateGrammarSpellingScore pi (.ok (issues, cnt))).score = 5) ∧
    (1 ≤ cnt → cnt ≤ 2 → (calculateGrammarSpellingScore pi (.ok (issues, cnt))).score = 4) ∧
    (3 ≤ cnt → cnt ≤ 4 → (calculateGrammarSpellingScore pi (.ok (issues, cnt))).score = 3) ∧
    (5 ≤ cnt → cnt ≤ 6 → (calculateGrammarSpellingScore pi (.ok (issues, cnt))).score = 2) ∧
    (7 ≤ cnt → cnt ≤ 8 → (calculateGrammarSpellingScore pi (.ok (issues, cnt))).score = 1) ∧
    (8 < cnt → (calculateGrammarSpellingScore pi (.ok (issues, cnt))).score = 0) := by
  have hscore : (calculateGrammarSpellingScore pi (.ok (issues, cnt))).score =
      (if cnt = 0 then (5 : ℚ) else if cnt ≤ 2 then 4 else if cnt ≤ 4 then 3
        else if cnt ≤ 6 then 2 else if cnt ≤ 8 then 1 else 0) ∧
      (calculateGrammarSpellingScore pi (.ok (issues, cnt))).max_score = 5 := by
    rw [calculateGrammarSpellingScore, if_neg (by simp [hne, hsp])]
    by_cases h0 : cnt = 0
    · simp [h0]
    · cases issues with
      | nil => simp [h0]
      | cons i0 rest =>
        have hs := hsent i0 rfl
        simp [h0, hs]
  refine ⟨hscore.2, ?_, ?_, ?_, ?_, ?_, ?_⟩
  · intro h1
    rw [hscore.1, if_pos h1]
  · intro h1 h2
    rw [hscore.1, if_neg (by omega), if_pos h2]
  · intro h1 h2
    rw [hscore.1, if_neg (by omega), if_neg (by omega), if_pos h2]
  · intro h1 h2
    rw [hscore.1, if_neg (by omega), if_neg (by omega), if_neg (by omega), if_pos h2]
  · intro h1 h2
    rw [hscore.1, if_neg (by omega), if_neg (by omega), if_neg (by omega), if_neg (by omega),
      if_pos h2]
  · intro h1
    rw [hscore.1, if_neg (by omega), if_neg (by omega), if_neg (by omega), if_neg (by omega),
      if_neg (by omega)]

/-- C3 witness: one issue (not the sentinel) on a non-empty answer
scores `4` out of `5`. -/
theorem C3_grammar_bucket_scores_witness :
    (calculateGrammarSpellingScore
      { question_text := "q", student_answer := "hello", reference_answer := none,
        evaluation_criteria := none, word_count_requirement := none,
        additional_metadata := none }
      (.ok (["Issue: 'x'."], 1))).score = 4 ∧
    (calculateGrammarSpellingScore
      { question_text := "q", student_answer := "hello", reference_answer := none,
        evaluation_criteria := none, word_count_requirement := none,
        additional_metadata := none }
      (.ok (["Issue: 'x'."], 1))).max_score = 5 := by
  have h := C3_grammar_bucket_scores
    { question_text := "q", student_answer := "hello", reference_answer := none,
      evaluation_criteria := none, word_count_requirement := none,
      additional_metadata := none }
    ["Issue: 'x'."] 1 (by decide) (by decide)
    (by
      intro i0 h0
      simp only [List.head?_cons, Option.some.injEq] at h0
      subst h0
      decide)
  exact ⟨h.2.2.1 (by norm_num) (by norm_num), h.1⟩

/-- C5: with the unbounded upper sentinel (`max_words = 0` at the inbound
interface becomes `float('inf')`, i.e. `⊤`), the upper side of the range
check is always satisfied: for every `min_words ≥ 0` and every answer
whose word count is at least `min_words`, the scorer returns the
score-5 within-range result (in particular not the "exceeds maximum"
outcome and not the invalid-requirement outcome), and every requirement
built from `max_words = 0` carries the `⊤` upper bound. -/
theorem C5_unbounded_max_always_satisfied (pi : GradingInput) (mn : ℤ)
    (hreq : pi.word_count_requirement =
      some { min_words := some mn, max_words := some (⊤ : WithTop ℤ) })
    (hmn : 0 ≤ mn) (hwc : mn ≤ (count_words pi.student_answer : ℤ)) :
    (checkWordCount pi =
      some { criterion_name := "Word Count Adherence", score := 5, max_score := 5,
             feedback := some ("Word count (" ++
               toString ((count_words pi.student_answer : ℤ)) ++
               ") is within the required range (" ++ toString mn ++ "-" ++
               maxWordsStr (⊤ : WithTop ℤ) ++ " words).") }) ∧
    maxWordsStr (⊤ : WithTop ℤ) = "inf" ∧
    (∀ m : ℤ, ∀ r : WordCountRange, buildWordCountRequirement m 0 = some r →
      r.max_words = some (⊤ : WithTop ℤ)) := by
  refine ⟨?_, rfl, ?_⟩
  · have hvalid : ¬(mn < 0 ∨ (⊤ : WithTop ℤ) < 0 ∨ (mn : WithTop ℤ) > (⊤ : WithTop ℤ)) := by
      push_neg
      refine ⟨by omega, by simp, by simp⟩
    have hemp : ¬(pi.student_answer = "" ∧ 0 < mn) := by
      rintro ⟨he, hpos⟩
      rw [he] at hwc
      have h0 : count_words "" = 0 := rfl
      rw [h0] at hwc
      simp at hwc
      omega
    simp only [checkWordCount, hreq]
    rw [if_neg hvalid, if_pos ⟨hwc, le_top⟩, if_neg hemp]
  · intro m r h
    rw [buildWordCountRequirement, if_pos (rfl : (0 : ℤ) = 0)] at h
    split_ifs at h with hc
    rw [Option.some.injEq] at h
    subst h
    rfl

/-- C5 witness: a three-word answer against `min = 2` with the unbounded
upper sentinel scores `5`, and the requirement built from the inbound
`max_words = 0` has the `⊤` upper bound. -/
theorem C5_unbounded_max_always_satisfied_witness :
    (checkWordCount
      { question_text := "q", student_answer := "a b c", reference_answer := none,
        evaluation_criteria := none,
        word_count_requirement :=
          some { min_words := some 2, max_words := some (⊤ : WithTop ℤ) },
        additional_metadata := none } =
      some { criterion_name := "Word Count Adherence", score := 5, max_score := 5,
             feedback := some ("Word count (" ++ toString ((count_words "a b c" : ℤ)) ++
               ") is within the required range (" ++ toString (2 : ℤ) ++ "-" ++
               maxWordsStr (⊤ : WithTop ℤ) ++ " words).") }) ∧
    (∀ r : WordCountRange, buildWordCountRequirement 4 0 = some r →
      r.max_words = some (⊤ : WithTop ℤ)) := by
  have h := C5_unbounded_max_always_satisfied
    { question_text := "q", student_answer := "a b c", reference_answer := none,
      evaluation_criteria := none,
      word_count_requirement :=
        some { min_words := some 2, max_words := some (⊤ : WithTop ℤ) },
      additional_metadata := none }
    2 rfl (by norm_num) (by decide)
  exact ⟨h.1, h.2.2 4⟩

/-- C6: the WordCountScorer returns nothing without a requirement; for a
valid finite requirement it scores `5` exactly when the word count lies in
the inclusive range, `5/2` strictly below the minimum and `5/2` strictly
above the maximum (always `max_score = 5`); an invalid requirement
(negative bound, or minimum above a finite maximum) yields the score-0
invalid result whose feedback is flagged into the evaluator's errors. -/
theorem C6_word_count_policy (pi : GradingInput) :
    (pi.word_count_requirement = none → checkWordCount pi = none) ∧
    (∀ mn mx : ℤ, pi.word_count_requirement =
        some { min_words := some mn, max_words := some ((mx : ℤ) : WithTop ℤ) } →
      0 ≤ mn → 0 ≤ mx → mn ≤ mx →
      ((mn ≤ (count_words pi.student_answer : ℤ) ∧
          (count_words pi.student_answer : ℤ) ≤ mx →
        ∃ fb, checkWordCount pi =
          some { criterion_name := "Word Count Adherence", score := 5, max_score := 5,
                 feedback := some fb }) ∧
       ((count_words pi.student_answer : ℤ) < mn →
        ∃ fb, checkWordCount pi =
          some { criterion_name := "Word Count Adherence", score := 5 / 2, max_score := 5,
                 feedback := some fb }) ∧
       (mx < (count_words pi.student_answer : ℤ) →
        ∃ fb, checkWordCount pi =
          some { criterion_name := "Word Count Adherence", score := 5 / 2, max_score := 5,
                 feedback := some fb }) ∧
       (∀ r, checkWordCount pi = some r →
        (r.score = 5 ↔ mn ≤ (count_words pi.student_answer : ℤ) ∧
          (count_words pi.student_answer : ℤ) ≤ mx)))) ∧
    (∀ mn : ℤ, ∀ mxw : WithTop ℤ, pi.word_count_requirement =
        some { min_words := some mn, max_words := some mxw } →
      (mn < 0 ∨ mxw < 0 ∨ (mn : WithTop ℤ) > mxw) →
      checkWordCount pi = some invalidWordCountScore ∧
      wordCountFeedbackFlagged (criterionFeedback invalidWordCountScore) = true ∧
      ∀ gi rr gr, criterionFeedback invalidWordCountScore ∈
        (evaluate gi rr gr (.ok (checkWordCount pi))).errors.getD []) := by
  refine ⟨?_, ?_, ?_⟩
  · intro h
    simp [checkWordCount, h]
  · intro mn mx hreq h0n h0x hnx
    have hvalid : ¬(mn < 0 ∨ ((mx : ℤ) : WithTop ℤ) < 0 ∨
        (mn : WithTop ℤ) > ((mx : ℤ) : WithTop ℤ)) := by
      push_neg
      refine ⟨by omega, ?_, ?_⟩
      · exact_mod_cast h0x
      · exact_mod_cast hnx
    have ha : mn ≤ (count_words pi.student_answer : ℤ) ∧
        (count_words pi.student_answer : ℤ) ≤ mx →
        ∃ fb, checkWordCount pi =
          some { criterion_name := "Word Count Adherence", score := 5, max_score := 5,
                 feedback := some fb } := by
      intro hin
      simp only [checkWordCount, hreq]
      rw [if_neg hvalid, if_pos ⟨hin.1, by exact_mod_cast hin.2⟩]
      exact ⟨_, rfl⟩
    have hb : (count_words pi.student_answer : ℤ) < mn →
        ∃ fb, checkWordCount pi =
          some { criterion_name := "Word Count Adherence", score := 5 / 2, max_score := 5,
                 feedback := some fb } := by
      intro hlt
      simp only [checkWordCount, hreq]
      rw [if_neg hvalid, if_neg (by rintro ⟨hh, _⟩; omega), if_pos hlt]
      exact ⟨_, rfl⟩
    have hc : mx < (count_words pi.student_answer : ℤ) →
        ∃ fb, checkWordCount pi =
          some { criterion_name := "Word Count Adherence", score := 5 / 2, max_score := 5,
                 feedback := some fb } := by
      intro hgt
      simp only [checkWordCount, hreq]
      rw [if_neg hvalid, if_neg ?hcond, if_neg (by omega)]
      · exact ⟨_, rfl⟩
      case hcond =>
        rintro ⟨_, hh⟩
        have : (count_words pi.student_answer : ℤ) ≤ mx := by exact_mod_cast hh
        omega
    refine ⟨ha, hb, hc, ?_⟩
    intro r hr
    constructor
    · intro h5
      by_cases h1 : (count_words pi.student_answer : ℤ) < mn
      · obtain ⟨fb, hf⟩ := hb h1
        rw [hr, Option.some.injEq] at hf
        subst hf
        norm_num at h5
      · by_cases h2 : mx < (count_words pi.student_answer : ℤ)
        · obtain ⟨fb, hf⟩ := hc h2
          rw [hr, Option.some.injEq] at hf
          subst hf
          norm_num at h5
        · exact ⟨by omega, by omega⟩
    · intro hin
      obtain ⟨fb, hf⟩ := ha hin
      rw [hr, Option.some.injEq] at hf
      subst hf
      rfl
  · intro mn mxw hreq hbad
    have hdone : checkWordCount pi = some invalidWordCountScore := by
      simp only [checkWordCount, hreq]
      rw [if_pos hbad]
    refine ⟨hdone, by decide, ?_⟩
    intro gi rr gr
    rw [hdone]
    apply evaluate_errors_mem
    have hfl : wordCountFeedbackFlagged (criterionFeedback invalidWordCountScore) = true := by
      decide
    simp [wordCountStep, hfl]

/-- C6 witness: range `[5, 10]` scores `5` at count `7`, `5/2` at count
`2` and at count `11`, and the requirement `min = 10, max = 5` yields the
flagged invalid result. -/
theorem C6_word_count_policy_witness :
    (checkWordCount
      { question_text := "q", student_answer := "a b c d e f g", reference_answer := none,
        evaluation_criteria := none,
        word_count_requirement :=
          some { min_words := some 5, max_words := some ((10 : ℤ) : WithTop ℤ) },
        additional_metadata := none }).map CriterionScore.score = some 5 ∧
    (checkWordCount
      { question_text := "q", student_answer := "a b", reference_answer := none,
        evaluation_criteria := none,
        word_count_requirement :=
          some { min_words := some 5, max_words := some ((10 : ℤ) : WithTop ℤ) },
        additional_metadata := none }).map CriterionScore.score = some (5 / 2) ∧
    (checkWordCount
      { question_text := "q", student_answer := "a b c d e f g h i j k",
        reference_answer := none, evaluation_criteria := none,
        word_count_requirement :=
          some { min_words := some 5, max_words := some ((10 : ℤ) : WithTop ℤ) },
        additional_metadata := none }).map CriterionScore.score = some (5 / 2) ∧
    checkWordCount
      { question_text := "q", student_answer := "a b", reference_answer := none,
        evaluation_criteria := none,
        word_count_requirement :=
          some { min_words := some 10, max_words := some ((5 : ℤ) : WithTop ℤ) },
        additional_metadata := none } = some invalidWordCountScore := by
  have h7 := (C6_word_count_policy
      { question_text := "q", student_answer := "a b c d e f g", reference_answer := none,
        evaluation_criteria := none,
        word_count_requirement :=
          some { min_words := some 5, max_words := some ((10 : ℤ) : WithTop ℤ) },
        additional_metadata := none }).2.1 5 10 rfl (by norm_num) (by norm_num) (by norm_num)
  have h2 := (C6_word_count_policy
      { question_text := "q", student_answer := "a b", reference_answer := none,
        evaluation_criteria := none,
        word_count_requirement :=
          some { min_words := some 5, max_words := some ((10 : ℤ) : WithTop ℤ) },
        additional_metadata := none }).2.1 5 10 rfl (by norm_num) (by norm_num) (by norm_num)
  have h11 := (C6_word_count_policy
      { question_text := "q", student_answer := "a b c d e f g h i j k",
        reference_answer := none, evaluation_criteria := none,
        word_count_requirement :=
          some { min_words := some 5, max_words := some ((10 : ℤ) : WithTop ℤ) },
        additional_metadata := none }).2.1 5 10 rfl (by norm_num) (by norm_num) (by norm_num)
  have hinv := (C6_word_count_policy
      { question_text := "q", student_answer := "a b", reference_answer := none,
        evaluation_criteria := none,
        word_count_requirement :=
          some { min_words := some 10, max_words := some ((5 : ℤ) : WithTop ℤ) },
        additional_metadata := none }).2.2 10 ((5 : ℤ) : WithTop ℤ) rfl
    (by right; right; exact_mod_cast (by norm_num : (5 : ℤ) < 10))
  obtain ⟨fb7, hf7⟩ := h7.1 (by constructor <;> decide)
  obtain ⟨fb2, hf2⟩ := h2.2.1 (by decide)
  obtain ⟨fb11, hf11⟩ := h11.2.2.1 (by decide)
  refine ⟨?_, ?_, ?_, hinv.1⟩
  · rw [hf7]
    rfl
  · rw [hf2]
    rfl
  · rw [hf11]
    rfl

theorem isPrefixOf_L_cons_I (l1 l2 : List Char) :
    List.isPrefixOf ('L' :: l1) ('I' :: l2) = false := by
  rw [show List.isPrefixOf ('L' :: l1) ('I' :: l2) =
    (('L' == 'I') && List.isPrefixOf l1 l2) from rfl]
  rw [show (('L' : Char) == 'I') = false from by decide, Bool.false_and]

theorem data_append_I {x : String} {l : List Char} (h : x.data = 'I' :: l) (y : String) :
    (x ++ y).data = 'I' :: (l ++ y.data) := by
  rw [String.data_append, h]
  rfl

theorem startsWith_sentinel_false {s : String} {l : List Char} (h : s.data = 'I' :: l) :
    strStartsWith s ltSentinel = false := by
  rw [strStartsWith, h, show ltSentinel.data = 'L' :: "anguageTool Error:".data from rfl,
    isPrefixOf_L_cons_I]

theorem describeMatch_not_sentinel (t : String) (m : LTMatch) :
    strStartsWith (describeMatch t m) ltSentinel = false := by
  have h0 : ("Issue: '" : String).data = 'I' :: "ssue: '".data := rfl
  have h1 := data_append_I h0 m.message
  have h2 := data_append_I h1 "'."
  simp only [describeMatch]
  split_ifs with hc1 hc2
  · exact startsWith_sentinel_false (data_append_I (data_append_I (data_append_I h2 _) _) _)
  · exact startsWith_sentinel_false (data_append_I (data_append_I h2 _) _)
  · exact startsWith_sentinel_false h2

/-- C7: whenever the first issue description produced by
`check_grammar_spelling` starts with the `LanguageTool Error:` sentinel
(which only its tool-failure branch can produce), the grammar scorer
forces the score to `0`, uses that sentinel message verbatim as the whole
feedback, and the evaluator copies that feedback into `errors`. -/
theorem C7_sentinel_override (gi : GradingInput) (tool : Except String (List LTMatch))
    (i0 : String)
    (hhead : (check_grammar_spelling (preprocessInput gi).student_answer tool).1.head? =
      some i0)
    (hpref : strStartsWith i0 ltSentinel = true) :
    calculateGrammarSpellingScore (preprocessInput gi)
      (.ok (check_grammar_spelling (preprocessInput gi).student_answer tool)) =
      { criterion_name := "Grammar and Spelling", score := 0, max_score := 5,
        feedback := some i0 } ∧
    ∀ rr wr, i0 ∈ Option.getD (evaluate gi rr
      (.ok (calculateGrammarSpellingScore (preprocessInput gi)
        (.ok (check_grammar_spelling (preprocessInput gi).student_answer tool)))) wr).errors
      [] := by
  by_cases hemp : (preprocessInput gi).student_answer = "" ∨
      strIsSpace (preprocessInput gi).student_answer
  · exfalso
    rw [check_grammar_spelling.eq_def, if_pos hemp] at hhead
    simp at hhead
  · cases tool with
    | ok ms =>
      exfalso
      rw [check_grammar_spelling, if_neg hemp] at hhead
      cases ms with
      | nil => simp at hhead
      | cons m rest =>
        simp only [List.map_cons, List.head?_cons, Option.some.injEq] at hhead
        rw [← hhead, describeMatch_not_sentinel] at hpref
        exact absurd hpref (by simp)
    | error e =>
      have hc : check_grammar_spelling (preprocessInput gi).student_answer (.error e) =
          ([ltErrorMsg e], 1) := by
        rw [check_grammar_spelling, if_neg hemp]
      rw [hc] at hhead
      simp only [List.head?_cons, Option.some.injEq] at hhead
      subst hhead
      have hscorer : calculateGrammarSpellingScore (preprocessInput gi)
          (.ok ([ltErrorMsg e], 1)) =
          { criterion_name := "Grammar and Spelling", score := 0, max_score := 5,
            feedback := some (ltErrorMsg e) } := by
        simp only [calculateGrammarSpellingScore]
        rw [if_neg hemp]
        simp [ltErrorMsg_startsWith_sentinel e]
      rw [hc]
      refine ⟨hscorer, ?_⟩
      intro rr wr
      rw [hscorer]
      apply evaluate_errors_mem
      have hfl : grammarFeedbackFlagged (criterionFeedback
          { criterion_name := "Grammar and Spelling", score := 0, max_score := 5,
            feedback := some (ltErrorMsg e) }) = true := by
        show grammarFeedbackFlagged (ltErrorMsg e) = true
        exact grammarFlagged_ltErrorMsg e
      simp only [grammarStep, hfl, criterionFeedback, if_true, List.mem_append,
        List.mem_singleton, Option.getD_some]
      simp [grammarFlagged_ltErrorMsg e]

/-- A concrete grading input used to instantiate the sentinel-override
theorem. -/
def giSample : GradingInput :=
  { question_text := "q", student_answer := "hello world", reference_answer := none,
    evaluation_criteria := none, word_count_requirement := none,
    additional_metadata := none }

/-- C7 witness: with the grammar tool raising `boom` on a normal answer,
the scorer returns score `0` with the sentinel message verbatim, and the
message lands in the evaluator's `errors`. -/
theorem C7_sentinel_override_witness :
    calculateGrammarSpellingScore (preprocessInput giSample)
      (.ok (check_grammar_spelling (preprocessInput giSample).student_answer
        (.error "boom"))) =
      { criterion_name := "Grammar and Spelling", score := 0, max_score := 5,
        feedback := some (ltErrorMsg "boom") } ∧
    ltErrorMsg "boom" ∈ Option.getD (evaluate giSample (.ok none)
      (.ok (calculateGrammarSpellingScore (preprocessInput giSample)
        (.ok (check_grammar_spelling (preprocessInput giSample).student_answer
          (.error "boom"))))) (.ok none)).errors [] := by
  have h := C7_sentinel_override giSample (.error "boom") (ltErrorMsg "boom")
    (by decide) (by decide)
  exact ⟨h.1, h.2 (.ok none) (.ok none)⟩

end AIGrader
